import Mathlib

/-!
Verification development for the polyclaw trading decision engine.

The Python source is shallowly embedded: prices, probabilities, bankrolls and
times are rationals (`ℚ`), Python float arithmetic is modeled as exact rational
arithmetic, `round(x, n)` is modeled as round-half-to-even at `n` decimal
digits, `int(x)` as truncation toward zero, and fallible functions return
`Except`/`Option`.  Wall-clock readings (`datetime.now`) are passed as explicit
`now` parameters measured in hours; ISO timestamps are likewise modeled as
rational hour counts.
-/

namespace Polyclaw

/-- Round-half-to-even to the nearest integer, the rounding used by Python's
built-in `round`. -/
def roundHalfEven (x : ℚ) : ℤ :=
  let f := ⌊x⌋
  let r := x - (f : ℚ)
  if r < 1/2 then f
  else if r > 1/2 then f + 1
  else if f % 2 = 0 then f else f + 1

/-- Python `round(x, n)`: round-half-to-even at `n` decimal digits. -/
def pyRound (n : ℕ) (x : ℚ) : ℚ :=
  (roundHalfEven (x * 10 ^ n) : ℚ) / 10 ^ n

/-- Python `int(x)`: truncation toward zero. -/
def pyInt (x : ℚ) : ℤ :=
  if 0 ≤ x then ⌊x⌋ else ⌈x⌉

/-- `src/edge_calculator.py`, `estimate_fee`: taker fee (only for the
fee-bearing sports market types) plus a symmetric spread cost. -/
def estimate_fee (price : ℚ) (market_type : String) : ℚ :=
  let fee : ℚ :=
    if market_type = "ncaab" ∨ market_type = "serie_a" ∨ market_type = "sports_fee" then
      0.0175 * price * (1 - price)
    else 0
  let spread_cost := 0.003 * 2 * price * (1 - price)
  fee + spread_cost

/-- The fields of `ProbEstimate.signals` that the edge calculator reads:
`end_date` (modeled as an absolute time in hours, `none` when unknown),
`n_signals` and `avg_importance`. -/
structure SignalsMeta where
  end_date : Option ℚ
  n_signals : ℕ
  avg_importance : ℚ
deriving DecidableEq

/-- `src/probability_engine.py`, `ProbEstimate` (the fields the decision
engine consumes). -/
structure ProbEstimate where
  market_id : String
  question : String
  current_price : ℚ
  ai_probability : ℚ
  confidence : ℚ
  signals : SignalsMeta
deriving DecidableEq

/-- `src/edge_calculator.py`, `hours_to_expiry`: hours from `now` until the
market's end date, floored at 0; `none` when the end date is unknown. -/
def hours_to_expiry (end_date : Option ℚ) (now : ℚ) : Option ℚ :=
  end_date.map fun e => max 0 (e - now)

/-- `src/edge_calculator.py`, `TradeSignal`. -/
structure TradeSignal where
  market_id : String
  question : String
  direction : String
  current_price : ℚ
  ai_probability : ℚ
  raw_edge : ℚ
  fee_estimate : ℚ
  edge : ℚ
  confidence : ℚ
  reliability : String
  kelly_fraction : ℚ
  position_size : ℚ
  expected_shares : ℕ
  expected_value : ℚ
deriving DecidableEq

/-- The post-direction entry price of a trade signal: the YES price for
`BUY_YES`, its complement for `BUY_NO` (this is the `entry_price` the scanner
passes to `open_position`, recomputed from `current_price` and `direction`). -/
def TradeSignal.entryPrice (sig : TradeSignal) : ℚ :=
  if sig.direction = "BUY_YES" then sig.current_price else 1 - sig.current_price

/-- The reliability classification at the end of `calculate_edge`
(informational, non-blocking). -/
def reliability_for (n_signals : ℕ) (avg_importance confidence : ℚ) : String :=
  if n_signals ≥ 3 ∧ avg_importance ≥ 3.5 ∧ confidence > 0.5 then "high"
  else if n_signals ≥ 2 ∧ avg_importance ≥ 2.5 then "medium"
  else "low"

/-- `src/edge_calculator.py`, `calculate_edge` lines 154-248: everything after
the expiry adjustments, taking the (possibly shrunk) AI probability and the
(possibly raised) minimum edge as arguments.  `.error r` models
`_log_filtered(..., r); return None`. -/
def calcEdgeCore (est : ProbEstimate) (ai_prob bankroll min_edge max_kelly_fraction : ℚ)
    (min_shares : ℕ) : Except String TradeSignal :=
  let market_price := est.current_price
  let yes_raw_edge := ai_prob - market_price
  let no_raw_edge := market_price - ai_prob
  let yes_fee := estimate_fee market_price "default"
  let no_fee := estimate_fee (1 - market_price) "default"
  let yes_edge := yes_raw_edge - yes_fee
  let no_edge := no_raw_edge - no_fee
  let pick : Option (String × ℚ × ℚ × ℚ × ℚ) :=
    if yes_edge > no_edge ∧ yes_edge ≥ min_edge then
      some ("BUY_YES", yes_raw_edge, yes_fee, yes_edge, market_price)
    else if no_edge ≥ min_edge then
      some ("BUY_NO", no_raw_edge, no_fee, no_edge, 1 - market_price)
    else none
  match pick with
  | none => .error "edge_below_threshold"
  | some (direction, raw_edge, fee, edge, entry_price) =>
    if entry_price < 0.03 then .error "lottery_ticket"
    else if entry_price ≥ 0.999 then .error "price_too_high"
    else if edge > 0.40 then .error "absurd_edge"
    else if market_price < 0.10 ∧ ai_prob > 0.35 then .error "extreme_low_price_mismatch"
    else if market_price > 0.90 ∧ ai_prob < 0.65 then .error "extreme_high_price_mismatch"
    else
      let b := 1 / entry_price - 1
      let p := if direction = "BUY_YES" then ai_prob else 1 - ai_prob
      let q := 1 - p
      let kelly0 := if b > 0 then (b * p - q) / b else 0
      let kellyClamped := max 0 (min kelly0 max_kelly_fraction)
      let kelly := kellyClamped * est.confidence
      let position_size := pyRound 2 (bankroll * kelly)
      let expected_shares : ℕ :=
        if position_size > 0 then (max 0 (pyInt (position_size / entry_price))).toNat else 0
      let ev := pyRound 2 (edge * expected_shares * entry_price)
      if expected_shares < min_shares then .error "too_few_shares"
      else
        let reliability := reliability_for est.signals.n_signals
          est.signals.avg_importance est.confidence
        .ok {
          market_id := est.market_id
          question := est.question
          direction := direction
          current_price := est.current_price
          ai_probability := est.ai_probability
          raw_edge := pyRound 4 raw_edge
          fee_estimate := pyRound 4 fee
          edge := pyRound 4 edge
          confidence := est.confidence
          reliability := reliability
          kelly_fraction := pyRound 4 kelly
          position_size := position_size
          expected_shares := expected_shares
          expected_value := ev }

/-- `src/edge_calculator.py`, `calculate_edge`: expiry-aware filtering and
adjustment, then the core edge/Kelly computation. -/
def calculate_edge (est : ProbEstimate) (bankroll min_edge max_kelly_fraction : ℚ)
    (min_shares : ℕ) (now : ℚ) : Except String TradeSignal :=
  match hours_to_expiry est.signals.end_date now with
  | none => calcEdgeCore est est.ai_probability bankroll min_edge max_kelly_fraction min_shares
  | some hours_left =>
    if hours_left < 1 then .error "expiring_<1h"
    else
      let min_edge1 := if hours_left < 6 then max min_edge 0.05 else min_edge
      let ai1 :=
        if hours_left > 720 then
          est.current_price + (est.ai_probability - est.current_price) * 0.7
        else est.ai_probability
      calcEdgeCore est ai1 bankroll min_edge1 max_kelly_fraction min_shares

/-! ## Position manager (`src/position_manager.py`) -/

/-- Risk parameters of `src/position_manager.py` (module constants). -/
def MAX_OPEN_POSITIONS : ℕ := 8

def MAX_POSITION_PCT : ℚ := 0.15

def MAX_TOTAL_EXPOSURE_PCT : ℚ := 1.00

def COOLDOWN_HOURS : ℚ := 1

def TIMEOUT_HOURS : ℚ := 24

def TIMEOUT_MOVE_THRESHOLD : ℚ := 0.02

def FEE_RATE : ℚ := 0.003

def KELLY_FRACTION : ℚ := 0.5

/-- Exit strategy parameters (the `*_TP_RATIO` / `*_SL_RATIO` module constants
of `src/position_manager.py`, lowercased). -/
def base_tp_ratio : ℚ := 0.70

def high_conf_tp_ratio : ℚ := 0.85

def low_conf_tp_ratio : ℚ := 0.55

def base_sl_ratio : ℚ := 0.75

def wide_sl_ratio : ℚ := 0.65

def tight_sl_ratio : ℚ := 0.82

def TRAILING_STOP_ACTIVATION : ℚ := 0.5

def TRAILING_STOP_DISTANCE : ℚ := 0.30

/-- `src/position_manager.py`, `kelly_size`: half-Kelly sizing with the AI
estimate blended toward the entry price by confidence, `p` clamped to
`[0.01, 0.99]`, fee-adjusted odds, and the result capped at
`MAX_POSITION_PCT` of bankroll and rounded to cents. -/
def kelly_size (ai_probability entry_price confidence bankroll : ℚ) : ℚ :=
  let blend_factor := max 0.5 (min 1 confidence)
  let p0 := entry_price + (ai_probability - entry_price) * blend_factor
  let p := max 0.01 (min 0.99 p0)
  let q := 1 - p
  let net_profit_per_share := (1 - entry_price) * (1 - FEE_RATE)
  if entry_price ≤ 0.001 ∨ net_profit_per_share ≤ 0 then 0
  else
    let b := net_profit_per_share / entry_price
    let f_star := (b * p - q) / b
    if f_star ≤ 0 then 0
    else
      let f_half := f_star * KELLY_FRACTION
      let f_capped := min f_half MAX_POSITION_PCT
      pyRound 2 (bankroll * f_capped)

/-- Exit reasons recorded by the primary position manager.  The code stores
them as strings; `TRAILING_STOP` carries the peak price and locked profit it
interpolates into its string (`"TRAILING_STOP(peak=...,locked=...)"`). -/
inductive ExitReason where
  | TAKE_PROFIT
  | STOP_LOSS
  | TRAILING_STOP (peak locked : ℚ)
  | TIME_TIGHTENED_STOP
  | TIMEOUT_FLAT
  | TIMEOUT_AGED
deriving DecidableEq

/-- `src/position_manager.py`, `Position` dataclass.  Times are hours. -/
structure Position where
  id : String
  market_id : String
  question : String
  direction : String
  entry_price : ℚ
  shares : ℤ
  cost : ℚ
  target_price : ℚ
  stop_loss : ℚ
  entry_time : ℚ
  status : String := "open"
  exit_price : Option ℚ := none
  exit_time : Option ℚ := none
  exit_reason : Option ExitReason := none
  pnl : Option ℚ := none
  trigger_news : String := ""
  confidence : ℚ := 0.7
  peak_price : Option ℚ := none
deriving DecidableEq

/-- The confidence-dependent take-profit ratio of `open_position`. -/
def tp_ratio_for (confidence : ℚ) : ℚ :=
  if confidence ≥ 0.75 then high_conf_tp_ratio
  else if confidence ≤ 0.55 then low_conf_tp_ratio
  else base_tp_ratio

/-- The position-size-dependent stop-loss ratio of `open_position` (small
positions get a wider stop, large ones a tighter stop). -/
def sl_ratio_for (kelly_pct : ℚ) : ℚ :=
  if kelly_pct ≤ 0.03 then wide_sl_ratio
  else if kelly_pct ≥ 0.10 then tight_sl_ratio
  else base_sl_ratio

/-- `src/position_manager.py`, `open_position`.  The persisted position list
and the clock are explicit arguments; the fresh uuid is the `pos_id`
argument.  Returns the created position, or `none` when any risk check or the
sizing refuses the entry. -/
def open_position (market_id question direction : String)
    (entry_price ai_probability bankroll : ℚ) (trigger_news : String)
    (confidence : ℚ) (positions : List Position) (now : ℚ) (pos_id : String) :
    Option Position :=
  let open_positions := positions.filter fun p => p.status = "open"
  if MAX_OPEN_POSITIONS ≤ open_positions.length then none
  else if open_positions.any fun p => p.market_id = market_id then none
  else
    let closed_same := positions.filter fun p =>
      p.market_id = market_id ∧ p.status = "closed" ∧ p.exit_time.isSome
    if closed_same.any (fun cp => match cp.exit_time with
        | some t => now - t < COOLDOWN_HOURS
        | none => false) then none
    else
      let kelly_cost := kelly_size ai_probability entry_price confidence bankroll
      if kelly_cost < 1 then none
      else
        let total_invested := (open_positions.map fun p => p.cost).sum
        let max_remaining := bankroll * MAX_TOTAL_EXPOSURE_PCT - total_invested
        let allowed_cost := min kelly_cost (max 0 max_remaining)
        if allowed_cost < 1 then none
        else
          let shares : ℤ := if entry_price > 0 then pyInt (allowed_cost / entry_price) else 0
          if shares < 3 then none
          else
            let cost := pyRound 2 (shares * entry_price)
            let tp_ratio := tp_ratio_for confidence
            let target_price := pyRound 4 (entry_price + (ai_probability - entry_price) * tp_ratio)
            let kelly_pct := cost / bankroll
            let sl_ratio := sl_ratio_for kelly_pct
            let stop_loss := pyRound 4 (entry_price * sl_ratio)
            some {
              id := pos_id
              market_id := market_id
              question := question
              direction := direction
              entry_price := entry_price
              shares := shares
              cost := cost
              target_price := target_price
              stop_loss := stop_loss
              entry_time := now
              trigger_news := trigger_news.take 200
              confidence := confidence
              peak_price := some entry_price }

/-- `src/position_manager.py`, `_close_position`: mark closed, record exit
price/time/reason and the cent-rounded pnl with the direction-dependent sign. -/
def close_position (pos : Position) (exit_price : ℚ) (reason : ExitReason) (now : ℚ) :
    Position :=
  { pos with
    status := "closed"
    exit_price := some exit_price
    exit_time := some now
    exit_reason := some reason
    pnl := some (if pos.direction = "BUY_YES"
      then pyRound 2 ((exit_price - pos.entry_price) * pos.shares)
      else pyRound 2 ((pos.entry_price - exit_price) * pos.shares)) }

/-- Python's `x or default` on an optional number: `None` and `0.0` are both
falsy. -/
def truthyOr (v : Option ℚ) (d : ℚ) : ℚ :=
  match v with
  | some x => if x = 0 then d else x
  | none => d

/-- The direction-adjusted price of a position: the YES price for `BUY_YES`,
its complement for `BUY_NO`. -/
def Position.currentOf (pos : Position) (yes_price : ℚ) : ℚ :=
  if pos.direction = "BUY_YES" then yes_price else 1 - yes_price

/-- The peak price after this cycle's monotone update
(`peak = pos.peak_price or pos.entry_price`, raised to `current`). -/
def Position.peakOf (pos : Position) (current : ℚ) : ℚ :=
  max (truthyOr pos.peak_price pos.entry_price) current

/-- The exit-check cascade of `src/position_manager.py`, `check_exits`, for
one open position, in the source's priority order (take-profit, stop-loss,
trailing stop, time-based tightening, timeout), given the direction-adjusted
current price and the already-updated peak.  Returns the exit reason, or
`none` when the position stays open. -/
def primary_exit_reason (pos : Position) (current peak : ℚ) (now : ℚ) :
    Option ExitReason :=
  if current ≥ pos.target_price then some .TAKE_PROFIT
  else if current ≤ pos.stop_loss then some .STOP_LOSS
  else if pos.target_price - pos.entry_price > 0 ∧
      (peak - pos.entry_price) / (pos.target_price - pos.entry_price) ≥ TRAILING_STOP_ACTIVATION ∧
      current ≤ max (peak * (1 - TRAILING_STOP_DISTANCE)) pos.stop_loss then
    some (.TRAILING_STOP peak ((current - pos.entry_price) * pos.shares))
  else
    let age_hours := now - pos.entry_time
    if age_hours > 12 ∧ age_hours ≤ 24 ∧ current ≤ (pos.stop_loss + pos.entry_price) / 2 then
      some .TIME_TIGHTENED_STOP
    else if age_hours > TIMEOUT_HOURS then
      if |current - pos.entry_price| < TIMEOUT_MOVE_THRESHOLD then some .TIMEOUT_FLAT
      else some .TIMEOUT_AGED
    else none

/-- One iteration of the loop in `src/position_manager.py`, `check_exits`,
for a single open position, given the fetched YES price: update the peak
(Python's `pos.peak_price or pos.entry_price` treats both `None` and `0.0`
as missing), then run the exit cascade and close on its reason. -/
def check_exits_step (pos : Position) (yes_price : ℚ) (now : ℚ) : Position :=
  let current := pos.currentOf yes_price
  let peak0 := truthyOr pos.peak_price pos.entry_price
  let pos1 := if current > peak0 then { pos with peak_price := some current } else pos
  match primary_exit_reason pos current (pos.peakOf current) now with
  | some r => close_position pos1 current r now
  | none => pos1

/-! ## Strategy arena (`src/strategy_arena.py`) and its database slice
(`src/db.py`) -/

/-- `src/strategy_arena.py`, `StrategyConfig`. -/
structure StrategyConfig where
  name : String
  description : String := ""
  kelly_fraction : ℚ := 0.5
  ai_discount : ℚ := 0.5
  min_edge : ℚ := 0.02
  max_position_pct : ℚ := 0.15
  tp_ratio : ℚ := 0.70
  sl_ratio : ℚ := 0.75
  trailing_stop : Bool := true
  trailing_activation : ℚ := 0.5
  trailing_distance : ℚ := 0.30
  timeout_hours : ℚ := 24
  max_open_positions : ℕ := 8
  min_confidence : ℚ := 0.0
  correlated_limit_pct : ℚ := 0.35
deriving DecidableEq

/-- The `"baseline"` entry of `STRATEGIES` (all tunables at their defaults). -/
def baseline : StrategyConfig := { name := "baseline" }

/-- A row of the `positions` table as the arena reads and writes it
(`src/db.py`).  Times are hours. -/
structure ArenaPosition where
  id : String
  trade_id : String := ""
  mode : String
  strategy : String
  market_id : String
  token_id : String := ""
  question : String
  direction : String
  entry_price : ℚ
  shares : ℤ
  filled_shares : ℤ
  cost : ℚ
  target_price : ℚ
  stop_loss : ℚ
  confidence : ℚ
  status : String
  order_id : String := ""
  entry_time : ℚ
  exit_price : Option ℚ := none
  exit_time : Option ℚ := none
  exit_reason : Option String := none
  pnl : Option ℚ := none
  trigger_news : String := ""
  neg_risk : ℕ := 0
  peak_price : Option ℚ := none
deriving DecidableEq

/-- A row of the `trades` table (the fields `try_open` and the stats read). -/
structure TradeRec where
  position_id : String
  mode : String
  strategy : String
  market_id : String
  exit_time : Option ℚ
  pnl : ℚ
deriving DecidableEq

/-- `src/db.py`, `get_positions`: rows filtered by `mode` and, when given, by
`strategy`. -/
def get_positions (rows : List ArenaPosition) (mode strategy : String) :
    List ArenaPosition :=
  rows.filter fun p => p.mode = mode ∧ (strategy = "" ∨ p.strategy = strategy)

/-- `src/db.py`, `get_trades`: the same filter over trade rows. -/
def get_trades (rows : List TradeRec) (mode strategy : String) : List TradeRec :=
  rows.filter fun t => t.mode = mode ∧ (strategy = "" ∨ t.strategy = strategy)

/-- The persistent store as the arena sees it. -/
structure ArenaDB where
  positions : List ArenaPosition
  trades : List TradeRec

/-- Prefix test on character lists (for substring matching). -/
def listPref : List Char → List Char → Bool
  | [], _ => true
  | _ :: _, [] => false
  | a :: as, b :: bs => a = b && listPref as bs

/-- Substring test on character lists: `listSub needle hay`. -/
def listSub (needle : List Char) : List Char → Bool
  | [] => listPref needle []
  | c :: rest => listPref needle (c :: rest) || listSub needle rest

/-- Python's `needle in hay` on strings. -/
def strContains (hay needle : String) : Bool :=
  listSub needle.toList hay.toList

/-- The hardcoded `CORRELATION_KEYWORDS` families in
`StrategyRunner.try_open`. -/
def CORRELATION_KEYWORDS : List (List String) :=
  [["bitcoin", "btc"], ["ethereum", "eth"], ["trump", "truth social"]]

/-- `src/strategy_arena.py`, `StrategyRunner.kelly_size`: Kelly with
strategy-specific fraction and AI discount, capped at the strategy's
`max_position_pct` before the fraction multiplier. -/
def arena_kelly_size (config : StrategyConfig) (bankroll ai_prob entry_price confidence : ℚ) :
    ℚ :=
  let blend_factor := config.ai_discount * max 0.5 (min 1 confidence)
  let p := max 0.01 (min 0.99 (entry_price + (ai_prob - entry_price) * blend_factor))
  let q := 1 - p
  let b := if entry_price > 0.001 then 1 / entry_price - 1 else 0
  if b ≤ 0 then 0
  else
    let f_star := (b * p - q) / b
    let f1 := max 0 (min f_star config.max_position_pct)
    let f2 := f1 * config.kelly_fraction
    pyRound 2 (bankroll * f2)

/-- `src/strategy_arena.py`, `StrategyRunner.try_open`.  The strategy's
position and trade-history slices and the clock are explicit; `time_str`
models the `strftime('%H%M%S')` fragment of the generated id. -/
def try_open (config : StrategyConfig) (bankroll signal_cooldown_hours : ℚ)
    (positions : List ArenaPosition) (history : List TradeRec)
    (market_id question direction : String) (entry_price ai_prob confidence : ℚ)
    (trigger : String) (now : ℚ) (time_str : String) : Option ArenaPosition :=
  if entry_price < 0.03 then none
  else
    let open_pos := positions.filter fun p => p.status = "open"
    if config.max_open_positions ≤ open_pos.length then none
    else if open_pos.any fun p => p.market_id = market_id then none
    else if history.any (fun h =>
        match h.exit_time with
        | some t =>
          h.market_id = market_id ∧ (now - t) * 3600 < signal_cooldown_hours * 3600
        | none => false) then none
    else if confidence < config.min_confidence then none
    else if CORRELATION_KEYWORDS.any (fun kws =>
        (kws.any fun kw => strContains question.toLower kw) ∧
        ((open_pos.filter fun p =>
            kws.any fun kw => strContains p.question.toLower kw).map
          (fun p => p.cost)).sum ≥ bankroll * config.correlated_limit_pct) then none
    else
      let cost0 := arena_kelly_size config bankroll ai_prob entry_price confidence
      if cost0 < 1 then none
      else
        let total := ((open_pos.map fun p => p.cost).sum)
        let cost1 := min cost0 (bankroll - total)
        if cost1 < 1 then none
        else
          let shares : ℤ := if entry_price > 0 then pyInt (cost1 / entry_price) else 0
          if shares < 3 then none
          else
            let cost := pyRound 2 (shares * entry_price)
            let move := |ai_prob - entry_price|
            let target := pyRound 4 (entry_price + move * config.tp_ratio)
            let stop := pyRound 4 (entry_price * config.sl_ratio)
            some {
              id := market_id.take 8 ++ "_" ++ time_str
              mode := "arena"
              strategy := config.name
              market_id := market_id
              question := question
              direction := direction
              entry_price := entry_price
              shares := shares
              filled_shares := shares
              cost := cost
              target_price := target
              stop_loss := stop
              confidence := confidence
              status := "open"
              entry_time := now
              trigger_news := trigger.take 200
              peak_price := some entry_price }

/-- `try_open` reading its inputs from the store exactly as
`StrategyRunner._load_positions` / `_load_history` do. -/
def try_open_db (db : ArenaDB) (config : StrategyConfig)
    (bankroll signal_cooldown_hours : ℚ) (market_id question direction : String)
    (entry_price ai_prob confidence : ℚ) (trigger : String) (now : ℚ)
    (time_str : String) : Option ArenaPosition :=
  try_open config bankroll signal_cooldown_hours
    (get_positions db.positions "arena" config.name)
    (get_trades db.trades "arena" config.name)
    market_id question direction entry_price ai_prob confidence trigger now time_str

/-- The direction-adjusted price of an arena position. -/
def ArenaPosition.currentOf (pos : ArenaPosition) (price : ℚ) : ℚ :=
  if pos.direction = "BUY_YES" then price else 1 - price

/-- The peak price of an arena position after this cycle's monotone update. -/
def ArenaPosition.peakOf (pos : ArenaPosition) (current : ℚ) : ℚ :=
  max (truthyOr pos.peak_price pos.entry_price) current

/-- The exit-reason cascade of `StrategyRunner.check_exits` for one open
position, given the (already updated) peak and the direction-adjusted current
price. -/
def arena_exit_reason (config : StrategyConfig) (pos : ArenaPosition)
    (current peak : ℚ) (now : ℚ) : Option String :=
  if current ≥ pos.target_price then some "TAKE_PROFIT"
  else if current ≤ pos.stop_loss then some "STOP_LOSS"
  else if config.trailing_stop ∧ pos.target_price - pos.entry_price > 0 ∧
      (peak - pos.entry_price) / (pos.target_price - pos.entry_price) ≥
        config.trailing_activation ∧
      current ≤ max (peak * (1 - config.trailing_distance)) pos.stop_loss then
    some "TRAILING_STOP"
  else if now - pos.entry_time > config.timeout_hours then some "TIMEOUT"
  else none

/-- One iteration of the loop in `StrategyRunner.check_exits` for a single
open position, given the fetched YES price. -/
def arena_check_exits_step (config : StrategyConfig) (pos : ArenaPosition)
    (price : ℚ) (now : ℚ) : ArenaPosition :=
  if price ≤ 0 then pos
  else
    let current := ArenaPosition.currentOf pos price
    if current ≤ 0 then pos
    else
      let peak0 := truthyOr pos.peak_price pos.entry_price
      let pos1 := if current > peak0 then { pos with peak_price := some current } else pos
      match arena_exit_reason config pos current (ArenaPosition.peakOf pos current) now with
      | some r =>
        { pos1 with
          status := "closed"
          exit_price := some current
          exit_time := some now
          exit_reason := some r
          pnl := some (if pos.direction = "BUY_YES"
            then pyRound 2 ((current - pos.entry_price) * pos.shares)
            else pyRound 2 ((pos.entry_price - current) * pos.shares)) }
      | none => pos1

/-! ## Signal aggregation and LLM merging (`src/probability_engine.py`) -/

/-- `src/probability_engine.py`, `IMPORTANCE_SHIFT` with the `.get(_, 0.04)`
fallback used by `estimate_single_signal`. -/
def IMPORTANCE_SHIFT (importance : ℕ) : ℚ :=
  if importance = 1 then 0.02
  else if importance = 2 then 0.04
  else if importance = 3 then 0.07
  else if importance = 4 then 0.12
  else if importance = 5 then 0.18
  else 0.04

/-- `src/probability_engine.py`, `SOURCE_WEIGHTS` with the `.get(_, 0.3)`
fallback. -/
def SOURCE_WEIGHTS (source : String) : ℚ :=
  if source = "Reuters" ∨ source = "AP" ∨ source = "Bloomberg" then 1
  else if source = "CoinDesk" ∨ source = "The Block" then 0.6
  else if source = "BlockBeats" then 0.8
  else if source = "PANews" then 0.7
  else if source = "CryptoNews" then 0.3
  else if source = "CoinGecko-Trending" then 0.2
  else if source = "Fear&Greed" then 0.3
  else if source = "BTC-Whale" then 0.85
  else if source = "ETH-Gas" then 0.7
  else if source = "BTC-Fees" then 0.6
  else if source = "DeFi-TVL" then 0.8
  else if source = "Exchange-Flow" then 0.9
  else if source = "ESPN" ∨ source = "ESPN-NBA" ∨ source = "ESPN-NFL" then 0.85
  else if source = "ESPN-Soccer" then 0.80
  else if source = "ESPN-MLB" then 0.80
  else if source = "Price-Alert" then 0.95
  else if source = "Volume-Spike" then 0.80
  else 0.3

/-- `src/probability_engine.py`, `compute_directional_shift`: known-up keeps
the sentiment, known-down negates it, unknown attenuates it to 30%.
(`question_type` is accepted and unused, as in the source.) -/
def compute_directional_shift (sentiment : ℚ) (yes_means_up : Option Bool)
    (question_type : String) : ℚ :=
  match yes_means_up with
  | some true => sentiment
  | some false => -sentiment
  | none => sentiment * 0.3

/-- `src/probability_engine.py`, `estimate_single_signal`, returning
`(directional_shift, signal_weight)`.  The freshness multiplier — in the
source `compute_freshness(published_str, news_type)`, an exponential
`2^(-age/halflife)` clamped to `[0.05, 1]`, or the fallback
`max(0.1, 1/(1+age/4))` — involves a transcendental power of the signal age,
so it is taken here as an explicit input; every theorem about this function
quantifies over it. -/
def estimate_single_signal (sentiment match_score : ℚ) (importance : ℕ)
    (source : String) (is_breaking : Bool) (yes_means_up : Option Bool)
    (question_type : String) (freshness : ℚ) : ℚ × ℚ :=
  let direction := compute_directional_shift sentiment yes_means_up question_type
  let max_shift0 := IMPORTANCE_SHIFT importance
  let max_shift := if is_breaking then max_shift0 * 1.5 else max_shift0
  let cred := SOURCE_WEIGHTS source
  let match_quality := match_score / 100
  let shift := direction * max_shift * cred * match_quality * freshness
  let weight := cred * match_quality * freshness * (if is_breaking then 1.5 else 1)
  (shift, weight)

/-- `src/probability_engine.py`, `discount_ai_probability`: blend the external
estimate toward the market price by the configured discount, round to 4
decimals, clamp to `[0.02, 0.98]`. -/
def discount_ai_probability (ai_prob market_price ai_estimate_discount : ℚ) : ℚ :=
  let move := ai_prob - market_price
  let discounted := market_price + move * ai_estimate_discount
  max 0.02 (min 0.98 (pyRound 4 discounted))

/-- The `mid in estimates_by_id` branch of `merge_llm_estimates`: the LLM
probability overrides the keyword estimate after discounting toward the
market price, and confidence becomes the max of both. -/
def merge_llm_into (est : ProbEstimate)
    (estimated_probability sig_confidence ai_estimate_discount : ℚ) : ProbEstimate :=
  { est with
    ai_probability :=
      discount_ai_probability estimated_probability est.current_price ai_estimate_discount
    confidence := max est.confidence sig_confidence }

/-! ## Arithmetic helper lemmas -/

theorem roundHalfEven_bounds (x : ℚ) :
    x - 1/2 ≤ (roundHalfEven x : ℚ) ∧ (roundHalfEven x : ℚ) ≤ x + 1/2 := by
  unfold roundHalfEven
  have hf1 : ((⌊x⌋ : ℤ) : ℚ) ≤ x := Int.floor_le x
  have hf2 : x < (⌊x⌋ : ℚ) + 1 := Int.lt_floor_add_one x
  dsimp only
  split_ifs with h1 h2 h3 <;> constructor <;> push_cast <;> linarith

theorem pyRound_le (n : ℕ) (x : ℚ) : pyRound n x ≤ x + 1 / (2 * 10 ^ n) := by
  unfold pyRound
  have hpos : (0 : ℚ) < 10 ^ n := by positivity
  rw [div_le_iff hpos]
  have h := (roundHalfEven_bounds (x * 10 ^ n)).2
  have : (x + 1 / (2 * 10 ^ n)) * 10 ^ n = x * 10 ^ n + 1/2 := by
    field_simp
    ring
  rw [this]
  exact h

theorem le_pyRound (n : ℕ) (x : ℚ) : x - 1 / (2 * 10 ^ n) ≤ pyRound n x := by
  unfold pyRound
  have hpos : (0 : ℚ) < 10 ^ n := by positivity
  rw [le_div_iff hpos]
  have h := (roundHalfEven_bounds (x * 10 ^ n)).1
  have : (x - 1 / (2 * 10 ^ n)) * 10 ^ n = x * 10 ^ n - 1/2 := by
    field_simp
    ring
  rw [this]
  exact h

theorem pyRound_zero (n : ℕ) : pyRound n 0 = 0 := by
  norm_num [pyRound, roundHalfEven]

/-- When the exit cascade returns a reason, `check_exits_step` closes the
position with that reason. -/
theorem check_exits_step_closes (pos : Position) (yes_price now : ℚ) (r : ExitReason)
    (h : primary_exit_reason pos (pos.currentOf yes_price)
      (pos.peakOf (pos.currentOf yes_price)) now = some r) :
    (check_exits_step pos yes_price now).status = "closed" ∧
    (check_exits_step pos yes_price now).exit_reason = some r := by
  unfold check_exits_step
  dsimp only
  rw [h]
  exact ⟨rfl, rfl⟩

/-- For an entry price above `0.99` the primary half-Kelly sizing returns
`$0`: with the blended probability clamped at `0.99`, the fee-adjusted odds
no longer clear the Kelly threshold. -/
theorem kelly_size_eq_zero_of_high_entry
    (ai_probability entry_price confidence bankroll : ℚ)
    (he : 0.99 < entry_price) :
    kelly_size ai_probability entry_price confidence bankroll = 0 := by
  unfold kelly_size
  dsimp only
  split_ifs with h1 h2
  · rfl
  · rfl
  · exfalso
    apply h2
    push_neg at h1
    obtain ⟨h1a, h1b⟩ := h1
    have he0 : (0 : ℚ) < entry_price := by linarith
    have he1 : entry_price < 1 := by
      by_contra hc
      push_neg at hc
      have hnp : (1 - entry_price) * (1 - FEE_RATE) ≤ 0 := by
        apply mul_nonpos_of_nonpos_of_nonneg
        · linarith
        · norm_num [FEE_RATE]
      linarith
    set P := max 0.01 (min 0.99 (entry_price +
      (ai_probability - entry_price) * max 0.5 (min 1 confidence))) with hP
    have hb : 0 < (1 - entry_price) * (1 - FEE_RATE) / entry_price := by
      apply div_pos _ he0
      apply mul_pos
      · linarith
      · norm_num [FEE_RATE]
    have hp99 : P ≤ 0.99 := max_le (by norm_num) (min_le_left _ _)
    have hm1 : (1 - entry_price) * (1 - FEE_RATE) / entry_price * P ≤
        (1 - entry_price) * (1 - FEE_RATE) / entry_price * (99/100) := by
      apply mul_le_mul_of_nonneg_left _ (le_of_lt hb)
      exact le_trans hp99 (by norm_num)
    have hm2 : (1 - entry_price) * (1 - FEE_RATE) / entry_price * (99/100) ≤ 1/100 := by
      rw [div_mul_eq_mul_div, div_le_iff he0]
      simp only [FEE_RATE]
      nlinarith
    apply div_nonpos_iff.mpr
    refine Or.inr ⟨?_, le_of_lt hb⟩
    have hq : (1:ℚ)/100 ≤ 1 - P := by linarith
    linarith

/-- For an entry price above `0.99` the arena Kelly sizing returns `$0`. -/
theorem arena_kelly_size_eq_zero_of_high_entry (config : StrategyConfig)
    (bankroll ai_prob entry_price confidence : ℚ) (he : 0.99 < entry_price) :
    arena_kelly_size config bankroll ai_prob entry_price confidence = 0 := by
  unfold arena_kelly_size
  dsimp only
  have he0 : (0 : ℚ) < entry_price := by linarith
  have hgt : entry_price > 0.001 := by linarith
  split_ifs with hb
  · rfl
  · push_neg at hb
    have he1 : entry_price < 1 := by
      by_contra hc
      push_neg at hc
      have h1e : 1 / entry_price ≤ 1 := by
        rw [div_le_one he0]
        linarith
      linarith
    set P := max 0.01 (min 0.99 (entry_price + (ai_prob - entry_price) *
      (config.ai_discount * max 0.5 (min 1 confidence)))) with hP
    have hp99 : P ≤ 0.99 := max_le (by norm_num) (min_le_left _ _)
    have hfs : (1 / entry_price - 1) * P - (1 - P) ≤ 0 := by
      have h1e : 1 / entry_price ≤ 100/99 := by
        rw [div_le_div_iff he0 (by norm_num)]
        linarith
      have hstep : (1 / entry_price - 1) * P ≤ (1 / entry_price - 1) * (99/100) := by
        apply mul_le_mul_of_nonneg_left _ (le_of_lt hb)
        exact le_trans hp99 (by norm_num)
      nlinarith
    have hdiv : ((1 / entry_price - 1) * P - (1 - P)) / (1 / entry_price - 1) ≤ 0 :=
      div_nonpos_iff.mpr (Or.inr ⟨hfs, le_of_lt hb⟩)
    have hmin : min (((1 / entry_price - 1) * P - (1 - P)) / (1 / entry_price - 1))
        config.max_position_pct ≤ 0 := le_trans (min_le_left _ _) hdiv
    rw [max_eq_left hmin, zero_mul, mul_zero, pyRound_zero]

set_option maxHeartbeats 2000000 in
/-- The core edge calculator only emits signals whose post-direction entry
price passed the `< 0.03` lottery-ticket rejection. -/
theorem calcEdgeCore_entry_lb (est : ProbEstimate)
    (ai_prob bankroll min_edge maxk : ℚ) (ms : ℕ) (sig : TradeSignal)
    (h : calcEdgeCore est ai_prob bankroll min_edge maxk ms = .ok sig) :
    0.03 ≤ sig.entryPrice := by
  have hyes : ("BUY_YES" : String) = "BUY_YES" := rfl
  have hno : ¬(("BUY_NO" : String) = "BUY_YES") := by decide
  unfold calcEdgeCore at h
  dsimp only at h
  split_ifs at h with hA hB <;> dsimp only at h <;>
    split_ifs at h with h1 h2 h3 h4 h5 h6 h7 h8 h9 h10 <;>
    try exact (Except.noConfusion h)
  all_goals
    injection h with hh
    subst hh
    simp only [TradeSignal.entryPrice]
    split_ifs <;> linarith

/-- The primary half-Kelly sizing never asks for more than
`bankroll × MAX_POSITION_PCT` plus the half-cent its rounding can add. -/
theorem pyRound2_mul_min_le (bankroll f m : ℚ) (hb : 0 ≤ bankroll) :
    pyRound 2 (bankroll * min f m) ≤ bankroll * m + 1/200 := by
  have hr := pyRound_le 2 (bankroll * min f m)
  have hmul : bankroll * min f m ≤ bankroll * m :=
    mul_le_mul_of_nonneg_left (min_le_right f m) hb
  have h200 : (1:ℚ) / (2 * 10 ^ 2) = 1/200 := by norm_num
  rw [h200] at hr
  linarith

theorem kelly_size_le_cap (ai_probability entry_price confidence bankroll : ℚ)
    (hb : 0 ≤ bankroll) :
    kelly_size ai_probability entry_price confidence bankroll ≤
      bankroll * MAX_POSITION_PCT + 1/200 := by
  have hmp : (0:ℚ) ≤ bankroll * MAX_POSITION_PCT := by
    apply mul_nonneg hb
    norm_num [MAX_POSITION_PCT]
  unfold kelly_size
  dsimp only
  split_ifs with h1 h2
  · linarith
  · linarith
  · exact pyRound2_mul_min_le bankroll _ MAX_POSITION_PCT hb

set_option maxHeartbeats 2000000 in
/-- In the core edge calculator, the fraction multiplied by the bankroll for
sizing is the raw Kelly fraction clamped to `[0, max_kelly_fraction]` and
scaled by the confidence, hence itself within `[0, max_kelly_fraction]`. -/
theorem calcEdgeCore_position_size (est : ProbEstimate)
    (ai_prob bankroll min_edge maxk : ℚ) (ms : ℕ) (sig : TradeSignal)
    (hc0 : 0 ≤ est.confidence) (hc1 : est.confidence ≤ 1) (hk : 0 ≤ maxk)
    (h : calcEdgeCore est ai_prob bankroll min_edge maxk ms = .ok sig) :
    ∃ k, 0 ≤ k ∧ k ≤ maxk ∧ sig.position_size = pyRound 2 (bankroll * k) := by
  have hno : ¬(("BUY_NO" : String) = "BUY_YES") := by decide
  unfold calcEdgeCore at h
  dsimp only at h
  split_ifs at h with hA hB <;> dsimp only at h <;>
    split_ifs at h with h1 h2 h3 h4 h5 h6 h7 h8 h9 h10 <;>
    try exact (Except.noConfusion h)
  all_goals
    injection h with hh
    subst hh
    exact ⟨_, mul_nonneg (le_max_left _ _) hc0,
      le_trans (mul_le_of_le_one_right (le_max_left _ _) hc1)
        (max_le hk (min_le_right _ _)), rfl⟩

/-! ## Claims -/

/-- **C7.**  For identical sentiment, importance, urgency, source, match
quality and freshness, the directional shift of a signal with unknown
directionality is exactly `0.3` times the known-up shift, the known-down
shift is the negation of the known-up shift, and the aggregation weight is
the same in all three cases. -/
theorem c7_unknown_direction_is_30pct (sentiment match_score : ℚ) (importance : ℕ)
    (source : String) (is_breaking : Bool) (question_type : String) (freshness : ℚ) :
    (estimate_single_signal sentiment match_score importance source is_breaking
        none question_type freshness).1 =
      0.3 * (estimate_single_signal sentiment match_score importance source is_breaking
        (some true) question_type freshness).1 ∧
    (estimate_single_signal sentiment match_score importance source is_breaking
        (some false) question_type freshness).1 =
      -(estimate_single_signal sentiment match_score importance source is_breaking
        (some true) question_type freshness).1 ∧
    (estimate_single_signal sentiment match_score importance source is_breaking
        none question_type freshness).2 =
      (estimate_single_signal sentiment match_score importance source is_breaking
        (some true) question_type freshness).2 ∧
    (estimate_single_signal sentiment match_score importance source is_breaking
        (some false) question_type freshness).2 =
      (estimate_single_signal sentiment match_score importance source is_breaking
        (some true) question_type freshness).2 := by
  refine ⟨?_, ?_, ?_, ?_⟩ <;>
    simp only [estimate_single_signal, compute_directional_shift] <;> ring

/-- **C8 (amended).**  Merging an external estimator's probability into an
existing estimate sets the probability to
`clamp₍₀.₀₂,₀.₉₈₎(round₄(market_price + (external − market_price) × discount))`
— the claimed blend toward the market price, but rounded to 4 decimal places
and clamped to `[0.02, 0.98]` — and the confidence to the max of both
inputs. -/
theorem c8_merge_blend (est : ProbEstimate) (p c d : ℚ) :
    merge_llm_into est p c d =
      { est with
        ai_probability :=
          max 0.02 (min 0.98 (pyRound 4 (est.current_price + (p - est.current_price) * d)))
        confidence := max est.confidence c } := by
  simp only [merge_llm_into, discount_ai_probability]

/-- **C8 counterexample.**  For market price `0.98`, external probability `1`
and the default discount `0.5`, the blend formula gives `0.99` but the code's
clamp records `0.98`: the merged probability does *not* equal
`market + (external − market) × discount`. -/
theorem c8_counterexample :
    (merge_llm_into
      { market_id := "m", question := "q", current_price := 0.98,
        ai_probability := 0.5, confidence := 0.4,
        signals := { end_date := none, n_signals := 1, avg_importance := 2 } }
      1 0.9 0.5).ai_probability = 0.98 ∧
    (0.98 : ℚ) + (1 - 0.98) * 0.5 = 0.99 ∧ (0.98 : ℚ) ≠ 0.99 := by
  refine ⟨?_, by norm_num, by norm_num⟩
  norm_num [merge_llm_into, discount_ai_probability, pyRound, roundHalfEven]

/-- **C6 (amended).**  With a known expiry `h` hours away: `h < 1` rejects
with the logged filter reason `"expiring_<1h"` (the code's reason string —
the spec's name `expiring_soon` appears nowhere in the code); `1 ≤ h < 6`
raises the min-edge requirement to `max min_edge 0.05`; `h > 720` (30 days)
shrinks the estimate's deviation from the market price by 30% (factor
`0.7`); each applied before the edge comparison (`calcEdgeCore`). -/
theorem c6_expiry_checks (est : ProbEstimate) (bankroll min_edge maxk : ℚ)
    (min_shares : ℕ) (now h : ℚ)
    (hexp : hours_to_expiry est.signals.end_date now = some h) :
    (h < 1 →
      calculate_edge est bankroll min_edge maxk min_shares now = .error "expiring_<1h") ∧
    (1 ≤ h → h < 6 →
      calculate_edge est bankroll min_edge maxk min_shares now =
        calcEdgeCore est est.ai_probability bankroll (max min_edge 0.05) maxk min_shares) ∧
    (h > 720 →
      calculate_edge est bankroll min_edge maxk min_shares now =
        calcEdgeCore est
          (est.current_price + (est.ai_probability - est.current_price) * 0.7)
          bankroll min_edge maxk min_shares) := by
  unfold calculate_edge
  rw [hexp]
  refine ⟨fun h1 => ?_, fun h1 h6 => ?_, fun h30 => ?_⟩
  · simp [h1]
  · dsimp only
    split_ifs with ha hb <;> first
      | rfl
      | linarith
  · dsimp only
    split_ifs with ha hb <;> first
      | rfl
      | linarith

/-- **C6 counterexample.**  A market expiring in half an hour is rejected,
but the logged filter reason is the string `"expiring_<1h"`, not
`"expiring_soon"` as the claim states. -/
theorem c6_counterexample :
    calculate_edge
      { market_id := "m", question := "q", current_price := 0.5,
        ai_probability := 0.8, confidence := 0.9,
        signals := { end_date := some 0.5, n_signals := 1, avg_importance := 2 } }
      1000 0.02 0.10 5 0 = .error "expiring_<1h" ∧
    "expiring_<1h" ≠ "expiring_soon" := by
  constructor
  · norm_num [calculate_edge, hours_to_expiry]
  · decide

/-- Witness for `c6_expiry_checks` at a concrete estimate expiring in half an
hour. -/
theorem c6_witness :
    calculate_edge
      { market_id := "w", question := "w", current_price := 0.5,
        ai_probability := 0.7, confidence := 0.9,
        signals := { end_date := some 1.5, n_signals := 1, avg_importance := 2 } }
      1000 0.02 0.10 5 1 = .error "expiring_<1h" :=
  (c6_expiry_checks
    { market_id := "w", question := "w", current_price := 0.5,
      ai_probability := 0.7, confidence := 0.9,
      signals := { end_date := some 1.5, n_signals := 1, avg_importance := 2 } }
    1000 0.02 0.10 5 1 0.5 (by norm_num [hours_to_expiry])).1 (by norm_num)

/-- **C2 (amended).**  Every close records
`pnl = round₂((exit − entry) × shares)` for `BUY_YES` and
`round₂((entry − exit) × shares)` for `BUY_NO` — the claimed formula with the
direction-dependent sign, but rounded to the nearest cent — both in the
primary manager's `_close_position` and in the arena's `check_exits`. -/
theorem c2_pnl_rounded_formula :
    (∀ (pos : Position) (exit_price : ℚ) (reason : ExitReason) (now : ℚ),
      (close_position pos exit_price reason now).pnl =
        some (if pos.direction = "BUY_YES"
          then pyRound 2 ((exit_price - pos.entry_price) * pos.shares)
          else pyRound 2 ((pos.entry_price - exit_price) * pos.shares))) ∧
    (∀ (config : StrategyConfig) (pos : ArenaPosition) (price now : ℚ),
      pos.status = "open" →
      (arena_check_exits_step config pos price now).status = "closed" →
      (arena_check_exits_step config pos price now).pnl =
        some (if pos.direction = "BUY_YES"
          then pyRound 2 ((pos.currentOf price - pos.entry_price) * pos.shares)
          else pyRound 2 ((pos.entry_price - pos.currentOf price) * pos.shares))) := by
  constructor
  · intro pos exit_price reason now
    rfl
  · intro config pos price now hopen hclosed
    unfold arena_check_exits_step at hclosed ⊢
    by_cases h1 : price ≤ 0
    · rw [if_pos h1] at hclosed
      rw [hopen] at hclosed
      exact absurd hclosed (by decide)
    · rw [if_neg h1] at hclosed ⊢
      dsimp only at hclosed ⊢
      by_cases h2 : pos.currentOf price ≤ 0
      · rw [if_pos h2] at hclosed
        rw [hopen] at hclosed
        exact absurd hclosed (by decide)
      · rw [if_neg h2] at hclosed ⊢
        cases hr : arena_exit_reason config pos (pos.currentOf price)
            (ArenaPosition.peakOf pos (pos.currentOf price)) now with
        | some r => rfl
        | none =>
          rw [hr] at hclosed
          dsimp only at hclosed
          by_cases h3 : pos.currentOf price > truthyOr pos.peak_price pos.entry_price
          · rw [if_pos h3] at hclosed
            dsimp only at hclosed
            rw [hopen] at hclosed
            exact absurd hclosed (by decide)
          · rw [if_neg h3] at hclosed
            rw [hopen] at hclosed
            exact absurd hclosed (by decide)

/-- **C2 counterexample.**  A profitable `BUY_YES` close at
`entry = 0.50`, `exit = 0.5001`, `shares = 3` records `pnl = 0` (cent
rounding), while the claimed formula `(exit − entry) × shares` gives
`0.0003`: the recorded pnl does not equal the unrounded product. -/
theorem c2_counterexample :
    (close_position
      { id := "i", market_id := "m", question := "q", direction := "BUY_YES",
        entry_price := 0.5, shares := 3, cost := 1.5, target_price := 0.57,
        stop_loss := 0.375, entry_time := 0 }
      0.5001 ExitReason.TAKE_PROFIT 1).pnl = some 0 ∧
    ((0.5001 : ℚ) - 0.5) * 3 = 0.0003 ∧ (0 : ℚ) ≠ 0.0003 := by
  refine ⟨?_, by norm_num, by norm_num⟩
  norm_num [close_position, pyRound, roundHalfEven]

/-- Witness for `c2_pnl_rounded_formula` (arena conjunct) at a concrete
take-profit close. -/
theorem c2_witness :
    (arena_check_exits_step baseline
      { id := "i", mode := "arena", strategy := "baseline", market_id := "m",
        question := "q", direction := "BUY_YES", entry_price := 0.5,
        shares := 10, filled_shares := 10, cost := 5, target_price := 0.57,
        stop_loss := 0.375, confidence := 0.7, status := "open",
        entry_time := 0, peak_price := some 0.5 }
      0.6 1).pnl = some (pyRound 2 (((0.6 : ℚ) - 0.5) * (10 : ℤ))) := by
  have h := c2_pnl_rounded_formula.2 baseline
    { id := "i", mode := "arena", strategy := "baseline", market_id := "m",
      question := "q", direction := "BUY_YES", entry_price := 0.5,
      shares := 10, filled_shares := 10, cost := 5, target_price := 0.57,
      stop_loss := 0.375, confidence := 0.7, status := "open",
      entry_time := 0, peak_price := some 0.5 }
    0.6 1 rfl
    (by norm_num [arena_check_exits_step, arena_exit_reason, baseline,
      ArenaPosition.currentOf, truthyOr])
  simpa [ArenaPosition.currentOf] using h

/-- Concrete arena position used by the C4 counterexample and witness:
entry 0.50, target 0.70, stop 0.375, so with peak 0.60 the progress toward
target is 50% (= the baseline activation) and the trailing floor is
`0.60 × 0.7 = 0.42`. -/
def c4_pos : ArenaPosition :=
  { id := "i", mode := "arena", strategy := "baseline", market_id := "m",
    question := "q", direction := "BUY_YES", entry_price := 0.5,
    shares := 10, filled_shares := 10, cost := 5, target_price := 0.70,
    stop_loss := 0.375, confidence := 0.7, status := "open",
    entry_time := 0, peak_price := some 0.6 }

/-- **C4 (amended).**  Once the peak has progressed at least the activation
fraction toward the target (and, in the arena, trailing is enabled), the
trailing-stop exit fires — reason `"TRAILING_STOP"` in the arena, the
`TRAILING_STOP` reason (rendered with peak/locked figures) in the primary
manager — exactly when the current price is at or below
`max(peak × (1 − trailing_distance), stop_loss)` *and* neither the
take-profit nor the stop-loss check already fired (current below target and
strictly above the original stop); the effective trailing stop never falls
below the original stop; and a price above that effective stop triggers no
exit at all before the timeout age. -/
theorem c4_trailing_stop (config : StrategyConfig) (pos : ArenaPosition)
    (current peak now : ℚ)
    (henabled : config.trailing_stop = true)
    (hmove : pos.target_price - pos.entry_price > 0)
    (hact : (peak - pos.entry_price) / (pos.target_price - pos.entry_price) ≥
      config.trailing_activation) :
    (arena_exit_reason config pos current peak now = some "TRAILING_STOP" ↔
      current < pos.target_price ∧ pos.stop_loss < current ∧
        current ≤ max (peak * (1 - config.trailing_distance)) pos.stop_loss) ∧
    pos.stop_loss ≤ max (peak * (1 - config.trailing_distance)) pos.stop_loss ∧
    (current < pos.target_price → pos.stop_loss < current →
      ¬(current ≤ max (peak * (1 - config.trailing_distance)) pos.stop_loss) →
      now - pos.entry_time ≤ config.timeout_hours →
      arena_exit_reason config pos current peak now = none) ∧
    (∀ (pos2 : Position) (current2 peak2 now2 : ℚ),
      pos2.target_price - pos2.entry_price > 0 →
      (peak2 - pos2.entry_price) / (pos2.target_price - pos2.entry_price) ≥
        TRAILING_STOP_ACTIVATION →
      ((∃ pk lk, primary_exit_reason pos2 current2 peak2 now2 =
          some (ExitReason.TRAILING_STOP pk lk)) ↔
        current2 < pos2.target_price ∧ pos2.stop_loss < current2 ∧
          current2 ≤ max (peak2 * (1 - TRAILING_STOP_DISTANCE)) pos2.stop_loss)) := by
  refine ⟨?_, le_max_right _ _, ?_, ?_⟩
  · unfold arena_exit_reason
    split_ifs with h1 h2 h3 h4
    · exact iff_of_false (by simp) fun hca => (not_lt.mpr h1) hca.1
    · exact iff_of_false (by simp) fun hca => (not_lt.mpr h2) hca.2.1
    · exact iff_of_true rfl ⟨not_le.mp h1, not_le.mp h2, h3.2.2.2⟩
    · exact iff_of_false (by simp)
        fun hca => h3 ⟨henabled, hmove, hact, hca.2.2⟩
    · exact iff_of_false (by simp)
        fun hca => h3 ⟨henabled, hmove, hact, hca.2.2⟩
  · intro hlt hgt hmax htime
    unfold arena_exit_reason
    split_ifs with h1 h2 h3 h4
    · exact absurd h1 (not_le.mpr hlt)
    · exact absurd h2 (not_le.mpr hgt)
    · exact absurd h3.2.2.2 hmax
    · exact absurd h4 (not_lt.mpr htime)
    · rfl
  · intro pos2 current2 peak2 now2 hmove2 hact2
    unfold primary_exit_reason
    dsimp only
    split_ifs with h1 h2 h3 h4 h5 h6
    · exact iff_of_false (by simp) fun hca => (not_lt.mpr h1) hca.1
    · exact iff_of_false (by simp) fun hca => (not_lt.mpr h2) hca.2.1
    · exact iff_of_true ⟨_, _, rfl⟩ ⟨not_le.mp h1, not_le.mp h2, h3.2.2⟩
    · exact iff_of_false (by simp) fun hca => h3 ⟨hmove2, hact2, hca.2.2⟩
    · exact iff_of_false (by simp) fun hca => h3 ⟨hmove2, hact2, hca.2.2⟩
    · exact iff_of_false (by simp) fun hca => h3 ⟨hmove2, hact2, hca.2.2⟩
    · exact iff_of_false (by simp) fun hca => h3 ⟨hmove2, hact2, hca.2.2⟩

/-- **C4 counterexample.**  With activation reached (peak 0.60, 50% progress,
baseline activation 0.5) and the current price at or below the effective
trailing stop `max(0.42, 0.375)`: at `current = 0.375` the position closes
with reason `"STOP_LOSS"`, not `"TRAILING_STOP"` as the claim's "exactly
when" requires; and at `current = 0.50` — a drop from the peak smaller than
the trailing distance — the position nevertheless closes (`"TIMEOUT"`) once
aged past the timeout, refuting "a smaller drop does not close the
position". -/
theorem c4_counterexample :
    ((0.6 - 0.5 : ℚ) / (0.70 - 0.5) ≥ baseline.trailing_activation ∧
      (0.375 : ℚ) ≤ max (0.6 * (1 - baseline.trailing_distance)) 0.375 ∧
      arena_exit_reason baseline c4_pos 0.375 0.6 1 = some "STOP_LOSS" ∧
      some "STOP_LOSS" ≠ some "TRAILING_STOP") ∧
    (¬((0.50 : ℚ) ≤ max (0.6 * (1 - baseline.trailing_distance)) 0.375) ∧
      arena_exit_reason baseline c4_pos 0.50 0.6 25 = some "TIMEOUT") := by
  refine ⟨⟨by norm_num [baseline], by norm_num [baseline], ?_, by decide⟩,
    ⟨by norm_num [baseline], ?_⟩⟩
  · norm_num [arena_exit_reason, baseline, c4_pos]
  · norm_num [arena_exit_reason, baseline, c4_pos]

/-- Witness for `c4_trailing_stop`: at `current = 0.41` (below the trailing
floor 0.42, above the stop 0.375) the arena closes with `"TRAILING_STOP"`. -/
theorem c4_witness :
    arena_exit_reason baseline c4_pos 0.41 0.6 1 = some "TRAILING_STOP" :=
  (c4_trailing_stop baseline c4_pos 0.41 0.6 1 rfl
    (by norm_num [c4_pos]) (by norm_num [c4_pos, baseline])).1.mpr
    ⟨by norm_num [c4_pos], by norm_num [c4_pos], by norm_num [c4_pos, baseline]⟩

/-- **C3 (amended).**  Each cycle, the primary manager checks every open
position's exits in the priority order take-profit, stop-loss, trailing
stop, time-based tightening, timeout, and a reason from the cascade closes
the position; in the tightening window (past 12 hours but at most 24 and
before the timeout fires) the stop is tightened to the midpoint
`(stop_loss + entry) / 2`, so the position closes whenever the current price
is at or below that midpoint.  The arena's exit check has *no* time-based
tightening step: it checks take-profit, stop-loss, trailing stop and timeout
in that order, and otherwise leaves the position open. -/
theorem c3_exit_priority (config : StrategyConfig) :
    (∀ (pos : Position) (current peak now : ℚ),
      (current ≥ pos.target_price →
        primary_exit_reason pos current peak now = some .TAKE_PROFIT) ∧
      (¬current ≥ pos.target_price → current ≤ pos.stop_loss →
        primary_exit_reason pos current peak now = some .STOP_LOSS) ∧
      (¬current ≥ pos.target_price → ¬current ≤ pos.stop_loss →
        (pos.target_price - pos.entry_price > 0 ∧
          (peak - pos.entry_price) / (pos.target_price - pos.entry_price) ≥
            TRAILING_STOP_ACTIVATION ∧
          current ≤ max (peak * (1 - TRAILING_STOP_DISTANCE)) pos.stop_loss) →
        primary_exit_reason pos current peak now =
          some (.TRAILING_STOP peak ((current - pos.entry_price) * pos.shares))) ∧
      (¬current ≥ pos.target_price → ¬current ≤ pos.stop_loss →
        ¬(pos.target_price - pos.entry_price > 0 ∧
          (peak - pos.entry_price) / (pos.target_price - pos.entry_price) ≥
            TRAILING_STOP_ACTIVATION ∧
          current ≤ max (peak * (1 - TRAILING_STOP_DISTANCE)) pos.stop_loss) →
        12 < now - pos.entry_time → now - pos.entry_time ≤ 24 →
        current ≤ (pos.stop_loss + pos.entry_price) / 2 →
        primary_exit_reason pos current peak now = some .TIME_TIGHTENED_STOP) ∧
      (12 < now - pos.entry_time → now - pos.entry_time ≤ 24 →
        current ≤ (pos.stop_loss + pos.entry_price) / 2 →
        (primary_exit_reason pos current peak now).isSome = true)) ∧
    (∀ (pos : Position) (yes_price now : ℚ) (r : ExitReason),
      primary_exit_reason pos (pos.currentOf yes_price)
        (pos.peakOf (pos.currentOf yes_price)) now = some r →
      (check_exits_step pos yes_price now).status = "closed") ∧
    (∀ (pos : ArenaPosition) (current peak now : ℚ),
      (current ≥ pos.target_price →
        arena_exit_reason config pos current peak now = some "TAKE_PROFIT") ∧
      (¬current ≥ pos.target_price → current ≤ pos.stop_loss →
        arena_exit_reason config pos current peak now = some "STOP_LOSS") ∧
      (¬current ≥ pos.target_price → ¬current ≤ pos.stop_loss →
        (config.trailing_stop = true ∧ pos.target_price - pos.entry_price > 0 ∧
          (peak - pos.entry_price) / (pos.target_price - pos.entry_price) ≥
            config.trailing_activation ∧
          current ≤ max (peak * (1 - config.trailing_distance)) pos.stop_loss) →
        arena_exit_reason config pos current peak now = some "TRAILING_STOP") ∧
      (¬current ≥ pos.target_price → ¬current ≤ pos.stop_loss →
        ¬(config.trailing_stop = true ∧ pos.target_price - pos.entry_price > 0 ∧
          (peak - pos.entry_price) / (pos.target_price - pos.entry_price) ≥
            config.trailing_activation ∧
          current ≤ max (peak * (1 - config.trailing_distance)) pos.stop_loss) →
        now - pos.entry_time > config.timeout_hours →
        arena_exit_reason config pos current peak now = some "TIMEOUT") ∧
      (¬current ≥ pos.target_price → ¬current ≤ pos.stop_loss →
        ¬(config.trailing_stop = true ∧ pos.target_price - pos.entry_price > 0 ∧
          (peak - pos.entry_price) / (pos.target_price - pos.entry_price) ≥
            config.trailing_activation ∧
          current ≤ max (peak * (1 - config.trailing_distance)) pos.stop_loss) →
        ¬(now - pos.entry_time > config.timeout_hours) →
        arena_exit_reason config pos current peak now = none)) := by
  refine ⟨?_, ?_, ?_⟩
  · intro pos current peak now
    refine ⟨fun h1 => ?_, fun h1 h2 => ?_, fun h1 h2 h3 => ?_,
      fun h1 h2 h3 ha hb hc => ?_, fun ha hb hc => ?_⟩
    · unfold primary_exit_reason
      rw [if_pos h1]
    · unfold primary_exit_reason
      rw [if_neg h1, if_pos h2]
    · unfold primary_exit_reason
      rw [if_neg h1, if_neg h2, if_pos h3]
    · unfold primary_exit_reason
      rw [if_neg h1, if_neg h2, if_neg h3]
      dsimp only
      rw [if_pos ⟨ha, hb, hc⟩]
    · unfold primary_exit_reason
      dsimp only
      split_ifs with h1 h2 h3 h4 h5 h6 <;> first
        | rfl
        | exact absurd ⟨ha, hb, hc⟩ h4
  · intro pos yes_price now r h
    exact (check_exits_step_closes pos yes_price now r h).1
  · intro pos current peak now
    refine ⟨fun h1 => ?_, fun h1 h2 => ?_, fun h1 h2 h3 => ?_,
      fun h1 h2 h3 h4 => ?_, fun h1 h2 h3 h4 => ?_⟩
    · unfold arena_exit_reason
      rw [if_pos h1]
    · unfold arena_exit_reason
      rw [if_neg h1, if_pos h2]
    · unfold arena_exit_reason
      rw [if_neg h1, if_neg h2, if_pos h3]
    · unfold arena_exit_reason
      rw [if_neg h1, if_neg h2, if_neg h3, if_pos h4]
    · unfold arena_exit_reason
      rw [if_neg h1, if_neg h2, if_neg h3, if_neg h4]

/-- Concrete arena position for the C3 counterexample: entry 0.50, target
0.57, stop 0.375, opened at time 0, baseline tunables. -/
def c3_pos : ArenaPosition :=
  { id := "i", mode := "arena", strategy := "baseline", market_id := "m",
    question := "q", direction := "BUY_YES", entry_price := 0.5,
    shares := 10, filled_shares := 10, cost := 5, target_price := 0.57,
    stop_loss := 0.375, confidence := 0.7, status := "open",
    entry_time := 0, peak_price := some 0.5 }

/-- The analogous primary-manager position. -/
def c3_primary_pos : Position :=
  { id := "i", market_id := "m", question := "q", direction := "BUY_YES",
    entry_price := 0.5, shares := 10, cost := 5, target_price := 0.57,
    stop_loss := 0.375, entry_time := 0, peak_price := some 0.5 }

/-- **C3 counterexample.**  13 hours after entry (inside the claimed
tightening window) with the current price 0.43 at or below the midpoint
`(0.375 + 0.5)/2 = 0.4375`: the primary manager closes
(`TIME_TIGHTENED_STOP`), but the arena's exit check — which has no
time-based-tightening step — returns no reason and leaves the position open,
contradicting the claim for arena positions. -/
theorem c3_counterexample :
    (12 < (13 : ℚ) - 0 ∧ (13 : ℚ) - 0 ≤ 24 ∧
      (0.43 : ℚ) ≤ ((0.375 : ℚ) + 0.5) / 2) ∧
    primary_exit_reason c3_primary_pos 0.43 0.5 13 = some .TIME_TIGHTENED_STOP ∧
    arena_exit_reason baseline c3_pos 0.43 0.5 13 = none ∧
    (arena_check_exits_step baseline c3_pos 0.43 13).status = "open" := by
  refine ⟨⟨by norm_num, by norm_num, by norm_num⟩, ?_, ?_, ?_⟩
  · norm_num [primary_exit_reason, c3_primary_pos, TRAILING_STOP_ACTIVATION,
      TRAILING_STOP_DISTANCE, TIMEOUT_HOURS]
  · norm_num [arena_exit_reason, baseline, c3_pos]
  · norm_num [arena_check_exits_step, arena_exit_reason, baseline, c3_pos,
      ArenaPosition.currentOf, ArenaPosition.peakOf, truthyOr]

/-- Witness for `c3_exit_priority`: the tightening conjunct at the concrete
position of the counterexample. -/
theorem c3_witness :
    primary_exit_reason c3_primary_pos 0.43 0.5 13 = some ExitReason.TIME_TIGHTENED_STOP :=
  ((c3_exit_priority baseline).1 c3_primary_pos 0.43 0.5 13).2.2.2.1
    (by norm_num [c3_primary_pos]) (by norm_num [c3_primary_pos])
    (by norm_num [c3_primary_pos, TRAILING_STOP_ACTIVATION, TRAILING_STOP_DISTANCE])
    (by norm_num [c3_primary_pos]) (by norm_num [c3_primary_pos])
    (by norm_num [c3_primary_pos])

/-- **C10.**  After a position on a market is closed, the same namespace
cannot reopen that market until the cooldown has elapsed since the recorded
exit time: any closed record on the market whose exit time is within
`COOLDOWN_HOURS` of `now` makes the primary `open_position` return `none`,
and any trade-history record within `signal_cooldown_hours` makes the
arena's `try_open` return `none`. -/
theorem c10_cooldown :
    (∀ (market_id question direction : String) (entry_price ai_probability bankroll : ℚ)
      (trigger_news : String) (confidence : ℚ) (positions : List Position)
      (now : ℚ) (pos_id : String) (cp : Position) (t : ℚ),
      cp ∈ positions → cp.market_id = market_id → cp.status = "closed" →
      cp.exit_time = some t → now - t < COOLDOWN_HOURS →
      open_position market_id question direction entry_price ai_probability bankroll
        trigger_news confidence positions now pos_id = none) ∧
    (∀ (config : StrategyConfig) (bankroll signal_cooldown_hours : ℚ)
      (positions : List ArenaPosition) (history : List TradeRec)
      (market_id question direction : String) (entry_price ai_prob confidence : ℚ)
      (trigger : String) (now : ℚ) (time_str : String) (h : TradeRec) (t : ℚ),
      h ∈ history → h.market_id = market_id → h.exit_time = some t →
      (now - t) * 3600 < signal_cooldown_hours * 3600 →
      try_open config bankroll signal_cooldown_hours positions history market_id
        question direction entry_price ai_prob confidence trigger now time_str = none) := by
  constructor
  · intro market_id question direction entry_price ai_probability bankroll trigger_news
      confidence positions now pos_id cp t hmem hmk hst ht hlt
    have hc : (positions.filter fun p =>
        p.market_id = market_id ∧ p.status = "closed" ∧ p.exit_time.isSome).any
        (fun cp => match cp.exit_time with
          | some t => now - t < COOLDOWN_HOURS
          | none => false) = true := by
      refine List.any_eq_true.mpr ⟨cp, List.mem_filter.mpr ⟨hmem, ?_⟩, ?_⟩
      · simp [hmk, hst, ht]
      · rw [ht]
        simp [hlt]
    unfold open_position
    dsimp only
    split_ifs <;> rfl
  · intro config bankroll signal_cooldown_hours positions history market_id question
      direction entry_price ai_prob confidence trigger now time_str h t hmem hmk ht hlt
    have hc : history.any (fun hh =>
        match hh.exit_time with
        | some t =>
          hh.market_id = market_id ∧ (now - t) * 3600 < signal_cooldown_hours * 3600
        | none => false) = true := by
      refine List.any_eq_true.mpr ⟨h, hmem, ?_⟩
      rw [ht]
      simp [hmk, hlt]
    unfold try_open
    dsimp only
    split_ifs <;> rfl

/-- Witness for `c10_cooldown`: a market closed at hour 10 cannot be
reopened at hour 10.5. -/
theorem c10_witness :
    open_position "m" "q" "BUY_YES" 0.5 0.7 1000 "" 0.8
      [{ id := "old", market_id := "m", question := "q", direction := "BUY_YES",
         entry_price := 0.4, shares := 10, cost := 4, target_price := 0.6,
         stop_loss := 0.3, entry_time := 1, status := "closed",
         exit_time := some 10 }] 10.5 "new" = none :=
  c10_cooldown.1 "m" "q" "BUY_YES" 0.5 0.7 1000 "" 0.8 _ 10.5 "new"
    { id := "old", market_id := "m", question := "q", direction := "BUY_YES",
      entry_price := 0.4, shares := 10, cost := 4, target_price := 0.6,
      stop_loss := 0.3, entry_time := 1, status := "closed",
      exit_time := some 10 } 10
    (by simp) rfl rfl rfl (by norm_num [COOLDOWN_HOURS])

/-- **C9.**  Two-run noninterference of strategies: a strategy's sizing
outcome through `try_open` depends only on its own position/trade slice of
the store (loaded via `get_positions`/`get_trades` filtered by `mode="arena"`
and its own name) and on the shared estimate-derived inputs.  Adding or
removing rows belonging to any *other* strategy (different name, or not in
arena mode) leaves the outcome unchanged. -/
theorem c9_strategy_isolation (db : ArenaDB) (extraP : List ArenaPosition)
    (extraT : List TradeRec) (config : StrategyConfig)
    (bankroll signal_cooldown_hours : ℚ) (market_id question direction : String)
    (entry_price ai_prob confidence : ℚ) (trigger : String) (now : ℚ)
    (time_str : String)
    (hname : config.name ≠ "")
    (hp : ∀ p ∈ extraP, p.mode ≠ "arena" ∨ p.strategy ≠ config.name)
    (ht : ∀ t ∈ extraT, t.mode ≠ "arena" ∨ t.strategy ≠ config.name) :
    try_open_db ⟨db.positions ++ extraP, db.trades ++ extraT⟩ config bankroll
      signal_cooldown_hours market_id question direction entry_price ai_prob
      confidence trigger now time_str =
    try_open_db db config bankroll signal_cooldown_hours market_id question
      direction entry_price ai_prob confidence trigger now time_str := by
  unfold try_open_db
  have h1 : get_positions (db.positions ++ extraP) "arena" config.name =
      get_positions db.positions "arena" config.name := by
    unfold get_positions
    rw [List.filter_append]
    have hnil : extraP.filter
        (fun p => decide (p.mode = "arena" ∧ (config.name = "" ∨ p.strategy = config.name)))
        = [] := by
      rw [List.filter_eq_nil]
      intro a ha
      rcases hp a ha with hm | hs
      · simp [hm]
      · simp [hs, hname]
    rw [hnil, List.append_nil]
  have h2 : get_trades (db.trades ++ extraT) "arena" config.name =
      get_trades db.trades "arena" config.name := by
    unfold get_trades
    rw [List.filter_append]
    have hnil : extraT.filter
        (fun t => decide (t.mode = "arena" ∧ (config.name = "" ∨ t.strategy = config.name)))
        = [] := by
      rw [List.filter_eq_nil]
      intro a ha
      rcases ht a ha with hm | hs
      · simp [hm]
      · simp [hs, hname]
    rw [hnil, List.append_nil]
  rw [h1, h2]

/-- Witness for `c9_strategy_isolation`: an open `aggressive` position in the
store does not change `baseline`'s `try_open` outcome. -/
theorem c9_witness :
    try_open_db
      ⟨[{ id := "a1", mode := "arena", strategy := "aggressive",
          market_id := "m2", question := "bitcoin up?", direction := "BUY_YES",
          entry_price := 0.4, shares := 100, filled_shares := 100, cost := 40,
          target_price := 0.6, stop_loss := 0.3, confidence := 0.8,
          status := "open", entry_time := 0 }], []⟩
      baseline 1000 4 "m" "q" "BUY_YES" 0.5 0.7 0.9 "" 1 "t" =
    try_open_db ⟨[], []⟩ baseline 1000 4 "m" "q" "BUY_YES" 0.5 0.7 0.9 "" 1 "t" := by
  have h := c9_strategy_isolation ⟨[], []⟩
    [{ id := "a1", mode := "arena", strategy := "aggressive",
       market_id := "m2", question := "bitcoin up?", direction := "BUY_YES",
       entry_price := 0.4, shares := 100, filled_shares := 100, cost := 40,
       target_price := 0.6, stop_loss := 0.3, confidence := 0.8,
       status := "open", entry_time := 0 }] []
    baseline 1000 4 "m" "q" "BUY_YES" 0.5 0.7 0.9 "" 1 "t"
    (by decide)
    (by intro p hmem
        rw [List.mem_singleton] at hmem
        subst hmem
        right
        decide)
    (by intro t hmem
        exact absurd hmem (List.not_mem_nil t))
  simpa using h

/-- **C5.**  No position with a post-direction entry price below `0.01` or
above `0.99` is ever created: the primary sizing engine only emits trade
signals with entry price `≥ 0.03` (lottery-ticket rejection), the primary
`open_position` refuses any entry above `0.99` (the clamped-probability
Kelly sizes it to `$0`), and the arena's `try_open` refuses entries below
`0.03` outright and sizes entries above `0.99` to `$0`. -/
theorem c5_no_degenerate_entry :
    (∀ (est : ProbEstimate) (bankroll min_edge maxk : ℚ) (ms : ℕ) (now : ℚ)
        (sig : TradeSignal),
      calculate_edge est bankroll min_edge maxk ms now = .ok sig →
      0.03 ≤ sig.entryPrice) ∧
    (∀ (market_id question direction : String)
        (entry_price ai_probability bankroll : ℚ) (trigger_news : String)
        (confidence : ℚ) (positions : List Position) (now : ℚ) (pos_id : String),
      0.99 < entry_price →
      open_position market_id question direction entry_price ai_probability bankroll
        trigger_news confidence positions now pos_id = none) ∧
    (∀ (config : StrategyConfig) (bankroll signal_cooldown_hours : ℚ)
        (positions : List ArenaPosition) (history : List TradeRec)
        (market_id question direction : String) (entry_price ai_prob confidence : ℚ)
        (trigger : String) (now : ℚ) (time_str : String),
      entry_price < 0.03 →
      try_open config bankroll signal_cooldown_hours positions history market_id
        question direction entry_price ai_prob confidence trigger now time_str = none) ∧
    (∀ (config : StrategyConfig) (bankroll signal_cooldown_hours : ℚ)
        (positions : List ArenaPosition) (history : List TradeRec)
        (market_id question direction : String) (entry_price ai_prob confidence : ℚ)
        (trigger : String) (now : ℚ) (time_str : String),
      0.99 < entry_price →
      try_open config bankroll signal_cooldown_hours positions history market_id
        question direction entry_price ai_prob confidence trigger now time_str = none) := by
  refine ⟨?_, ?_, ?_, ?_⟩
  · intro est bankroll min_edge maxk ms now sig h
    unfold calculate_edge at h
    cases hE : hours_to_expiry est.signals.end_date now with
    | none =>
      rw [hE] at h
      exact calcEdgeCore_entry_lb _ _ _ _ _ _ _ h
    | some hl =>
      rw [hE] at h
      dsimp only at h
      split_ifs at h <;> first
        | exact (Except.noConfusion h)
        | exact calcEdgeCore_entry_lb _ _ _ _ _ _ _ h
  · intro market_id question direction entry_price ai_probability bankroll trigger_news
      confidence positions now pos_id he
    have hk := kelly_size_eq_zero_of_high_entry ai_probability entry_price confidence
      bankroll he
    unfold open_position
    dsimp only
    rw [hk]
    norm_num
  · intro config bankroll signal_cooldown_hours positions history market_id question
      direction entry_price ai_prob confidence trigger now time_str he
    unfold try_open
    rw [if_pos he]
  · intro config bankroll signal_cooldown_hours positions history market_id question
      direction entry_price ai_prob confidence trigger now time_str he
    have hk := arena_kelly_size_eq_zero_of_high_entry config bankroll ai_prob
      entry_price confidence he
    unfold try_open
    dsimp only
    rw [hk]
    norm_num

/-- Witness for `c5_no_degenerate_entry`: the arena refuses an entry at
`0.995`. -/
theorem c5_witness :
    try_open baseline 1000 4 [] [] "m" "q" "BUY_YES" 0.995 0.999 1 "" 0 "t" = none :=
  c5_no_degenerate_entry.2.2.2 baseline 1000 4 [] [] "m" "q" "BUY_YES" 0.995 0.999 1
    "" 0 "t" (by norm_num)

/-- **C1 (amended).**  The Kelly fraction used for sizing in the edge
calculator is clamped to `[0, max_kelly_fraction]` before the bankroll
multiplication (for a valid estimate, confidence ∈ [0,1]); and the cost of
any position opened by `open_position` never exceeds
`max_position_pct × bankroll` *by more than one cent*, nor the remaining
total-exposure budget (bankroll × exposure cap minus the summed cost of
already-open positions) *by more than half a cent* — the slack the
round-to-cents steps can add. -/
theorem c1_kelly_clamp_and_cost_caps :
    (∀ (est : ProbEstimate) (bankroll min_edge maxk : ℚ) (ms : ℕ) (now : ℚ)
        (sig : TradeSignal),
      0 ≤ est.confidence → est.confidence ≤ 1 → 0 ≤ maxk →
      calculate_edge est bankroll min_edge maxk ms now = .ok sig →
      ∃ k, 0 ≤ k ∧ k ≤ maxk ∧ sig.position_size = pyRound 2 (bankroll * k)) ∧
    (∀ (market_id question direction : String)
        (entry_price ai_probability bankroll : ℚ) (trigger_news : String)
        (confidence : ℚ) (positions : List Position) (now : ℚ) (pos_id : String)
        (pos : Position),
      0 ≤ bankroll →
      open_position market_id question direction entry_price ai_probability bankroll
        trigger_news confidence positions now pos_id = some pos →
      pos.cost ≤ bankroll * MAX_POSITION_PCT + 1/100 ∧
      pos.cost ≤ bankroll * MAX_TOTAL_EXPOSURE_PCT -
          (((positions.filter fun p => p.status = "open").map fun p => p.cost).sum)
        + 1/200) := by
  constructor
  · intro est bankroll min_edge maxk ms now sig hc0 hc1 hk h
    unfold calculate_edge at h
    cases hE : hours_to_expiry est.signals.end_date now with
    | none =>
      rw [hE] at h
      exact calcEdgeCore_position_size _ _ _ _ _ _ _ hc0 hc1 hk h
    | some hl =>
      rw [hE] at h
      dsimp only at h
      split_ifs at h <;> first
        | exact (Except.noConfusion h)
        | exact calcEdgeCore_position_size _ _ _ _ _ _ _ hc0 hc1 hk h
  · intro market_id question direction entry_price ai_probability bankroll trigger_news
      confidence positions now pos_id pos hb h
    have h03 : ((0:ℤ) < 3) := by norm_num
    unfold open_position at h
    dsimp only at h
    split_ifs at h with h1 h2 h3 h4 h5 h6 h7 <;> try exact (Option.noConfusion h)
    injection h with hh
    subst hh
    dsimp only
    generalize hKC : kelly_size ai_probability entry_price confidence bankroll = KC
      at h4 h5 h7 ⊢
    generalize hREM : bankroll * MAX_TOTAL_EXPOSURE_PCT -
      ((positions.filter fun p => p.status = "open").map fun p => p.cost).sum = REM
      at h5 h7 ⊢
    have hcap : KC ≤ bankroll * MAX_POSITION_PCT + 1/200 := by
      rw [← hKC]
      exact kelly_size_le_cap ai_probability entry_price confidence bankroll hb
    have hall1 : (1:ℚ) ≤ min KC (max 0 REM) := not_lt.mp h5
    have hrem0 : (0:ℚ) ≤ REM := by
      by_contra hc
      push_neg at hc
      rw [max_eq_left (le_of_lt hc)] at hall1
      have hm := min_le_right KC (0:ℚ)
      linarith
    have hallk : min KC (max 0 REM) ≤ KC := min_le_left _ _
    have hallr : min KC (max 0 REM) ≤ REM :=
      le_trans (min_le_right _ _) (le_of_eq (max_eq_right hrem0))
    have hshnn : (0:ℚ) ≤ min KC (max 0 REM) / entry_price :=
      div_nonneg (by linarith) (le_of_lt h6)
    have hpyint : pyInt (min KC (max 0 REM) / entry_price) =
        ⌊min KC (max 0 REM) / entry_price⌋ := by
      unfold pyInt
      rw [if_pos hshnn]
    have hfl : (⌊min KC (max 0 REM) / entry_price⌋ : ℚ) * entry_price ≤
        min KC (max 0 REM) := by
      have hle := Int.floor_le (min KC (max 0 REM) / entry_price)
      have hmul := mul_le_mul_of_nonneg_right hle (le_of_lt h6)
      rwa [div_mul_cancel₀ _ (ne_of_gt h6)] at hmul
    rw [hpyint]
    have hr := pyRound_le 2 ((⌊min KC (max 0 REM) / entry_price⌋ : ℚ) * entry_price)
    have h200 : (1:ℚ) / (2 * 10 ^ 2) = 1/200 := by norm_num
    rw [h200] at hr
    constructor <;> linarith

/-- **C1 counterexample.**  With bankroll `$10.06`, entry price `0.1509`,
AI probability `0.99` and confidence `1`, `open_position` opens a position of
cost `$1.51`, while `max_position_pct × bankroll = $1.509`: cent rounding
pushes the cost a tenth of a cent past the cap, so "never exceeds
max_position_pct × bankroll" is false as stated. -/
theorem c1_counterexample :
    ((open_position "m" "q" "BUY_YES" 0.1509 0.99 10.06 "" 1 [] 0 "id").map
      (fun p => p.cost)).getD 0 = 1.51 ∧
    MAX_POSITION_PCT * 10.06 = 1.509 ∧ ¬((1.51 : ℚ) ≤ 1.509) := by
  refine ⟨?_, by norm_num [MAX_POSITION_PCT], by norm_num⟩
  norm_num [open_position, kelly_size, pyRound, roundHalfEven, pyInt, FEE_RATE,
    KELLY_FRACTION, MAX_POSITION_PCT, MAX_OPEN_POSITIONS, MAX_TOTAL_EXPOSURE_PCT,
    COOLDOWN_HOURS, tp_ratio_for, sl_ratio_for, high_conf_tp_ratio, low_conf_tp_ratio, base_tp_ratio,
    wide_sl_ratio, tight_sl_ratio, base_sl_ratio]

/-- Witness for `c1_kelly_clamp_and_cost_caps` at the bankroll-`$10.06`
opening: the opened cost respects the caps up to the rounding slack. -/
theorem c1_witness :
    (open_position "m" "q" "BUY_YES" 0.1509 0.99 10.06 "" 1 [] 0 "id").isSome = true ∧
    ((open_position "m" "q" "BUY_YES" 0.1509 0.99 10.06 "" 1 [] 0 "id").map
      (fun p => p.cost)).getD 0 ≤ 10.06 * MAX_POSITION_PCT + 1/100 := by
  constructor
  · norm_num [open_position, kelly_size, pyRound, roundHalfEven, pyInt, FEE_RATE,
      KELLY_FRACTION, MAX_POSITION_PCT, MAX_OPEN_POSITIONS, MAX_TOTAL_EXPOSURE_PCT,
      COOLDOWN_HOURS, tp_ratio_for, sl_ratio_for, high_conf_tp_ratio, low_conf_tp_ratio, base_tp_ratio,
      wide_sl_ratio, tight_sl_ratio, base_sl_ratio]
  · cases hop : open_position "m" "q" "BUY_YES" 0.1509 0.99 10.06 "" 1 [] 0 "id" with
    | none => norm_num [MAX_POSITION_PCT]
    | some p =>
      have hcap := (c1_kelly_clamp_and_cost_caps.2 "m" "q" "BUY_YES" 0.1509 0.99 10.06
        "" 1 [] 0 "id" p (by norm_num) hop).1
      simpa [hop] using hcap

end Polyclaw
